import Mathlib

/-! chibi-tech-vulkan: vendor shims.

Two pieces of the repository are embedded here.

* `vendor/src/imgui/imgui_backend_wrapper.cpp`: `ig_load_vk_functions`, which
  builds a stack-local `UserData` context and drives the GUI library's
  function loader with a capture-less lambda (the adapter).
* `vendor/src/vulkan/vulkan_wrapper.h` and `engine/vendor/vulkan/vulkan_wrapper.h`:
  the preprocessor directives of lines 1 to 15 of each header.

Stateful code is written in state-passing style over a `World` made of the
automatic storage holding `UserData` objects and a trace of the calls made.
-/

namespace ChibiTech

/-! ## Function-pointer bridge: data model -/

/-- A `PFN_vkVoidFunction` value; `0` is the null pointer. -/
abbrev Ptr := Nat

/-- A `VkInstance` handle; `0` is `VK_NULL_HANDLE`. -/
abbrev VkInstance := Nat

/-- The address of an object in automatic storage (the `void* user_data`). -/
abbrev Addr := Nat

/-- The code behind a non-null `PFN_vkGetInstanceProcAddr`: given an instance
handle and an entry-point name it yields a function pointer or null. -/
abbrev ResolverFn := VkInstance → String → Ptr

/-- A `PFN_vkGetInstanceProcAddr` value: `none` is the null function pointer. -/
abbrev PFN_vkGetInstanceProcAddr := Option ResolverFn

/-- The local `struct UserData` of `ig_load_vk_functions` (lines 10 to 13). -/
structure UserData where
  vkGetInstanceProcAddress : PFN_vkGetInstanceProcAddr
  instance_ : VkInstance

/-- What an observer of one run can record. -/
inductive Event where
  /-- `ImGui_ImplVulkan_LoadFunctions(loader_func, user_data)` was entered; the
  second field is the object `user_data` points to at that moment. -/
  | loaderCall (user_data : Addr) (pointee : Option UserData)
  /-- The loader invoked `loader_func(function_name, user_data)`. -/
  | adapterCall (function_name : String) (user_data : Addr)
  /-- The resolver was invoked through the stored function pointer. -/
  | resolverCall (instance_ : VkInstance) (function_name : String)
  /-- The call `loader_func(function_name, _)` returned `result` to the loader. -/
  | adapterReturn (function_name : String) (result : Ptr)

/-- The program state: the live `UserData` objects in automatic storage (an
object's address is its index, the most recent frame is last) and the trace. -/
structure World where
  stack : List UserData
  trace : List Event

/-- Append one event to the trace. -/
def World.log (w : World) (e : Event) : World :=
  { w with trace := w.trace ++ [e] }

/-- Why an execution has no defined behaviour. -/
inductive Fault where
  /-- `user_data` does not point to a live `UserData`. -/
  | danglingContext
  /-- A call through a null `PFN_vkGetInstanceProcAddr`. -/
  | nullFunctionPointer
  deriving DecidableEq, Repr

/-- The outcome of running a piece of code from a world: it returns a value,
or it reaches undefined behaviour; either way the world reached is kept. -/
inductive Outcome (α : Type) where
  | ok (val : α) (w : World)
  | fault (why : Fault) (w : World)

/-- The world an outcome ends in. -/
def Outcome.world {α : Type} : Outcome α → World
  | .ok _ w => w
  | .fault _ w => w

/-- The events recorded between world `since` and the end of the outcome. -/
def Outcome.events {α : Type} (o : Outcome α) (since : World) : List Event :=
  o.world.trace.drop since.trace.length

/-- Whether the outcome is a normal return. -/
def Outcome.returned {α : Type} : Outcome α → Bool
  | .ok _ _ => true
  | .fault _ _ => false

/-! ## Function-pointer bridge: the code -/

/-- The lambda of lines 16 to 19:
`UserData* data = static_cast<UserData*>(user_data);`
`return data->vkGetInstanceProcAddress(data->instance, function_name);` -/
def adapter (function_name : String) (user_data : Addr) (w : World) : Outcome Ptr :=
  match w.stack[user_data]? with
  | none => .fault .danglingContext w
  | some data =>
    match data.vkGetInstanceProcAddress with
    | none => .fault .nullFunctionPointer w
    | some vkGetInstanceProcAddress =>
      .ok (vkGetInstanceProcAddress data.instance_ function_name)
        (w.log (.resolverCall data.instance_ function_name))

/-- Modelled from the spec: the body of `ImGui_ImplVulkan_LoadFunctions`
(`cpp_backend/imgui_impl_vulkan.cpp`) is not among the sources. Following the
spec, a loader is a synchronous routine that, for every entry point it needs,
calls the adapter with the entry point's name, may decide what to do next from
the pointer it gets back, and finally reports success or failure. -/
inductive LoaderProg where
  /-- The loader returns, reporting `success`. -/
  | ret (success : Bool)
  /-- The loader calls `loader_func(function_name, user_data)` and goes on
  with `next` applied to the pointer returned. -/
  | load (function_name : String) (next : Ptr → LoaderProg)

/-- Modelled from the spec: one call `ImGui_ImplVulkan_LoadFunctions(loader_func,
user_data)` of the loader `prog`. Each request goes to `loader_func` together
with the opaque `user_data` the loader was handed; undefined behaviour inside
`loader_func` ends the run. -/
def runLoader (loader_func : String → Addr → World → Outcome Ptr) (user_data : Addr) :
    LoaderProg → World → Outcome Bool
  | .ret success, w => .ok success w
  | .load function_name next, w =>
    match loader_func function_name user_data (w.log (.adapterCall function_name user_data)) with
    | .ok result w1 =>
      runLoader loader_func user_data (next result) (w1.log (.adapterReturn function_name result))
    | .fault why w1 => .fault why w1

/-- The function `ig_load_vk_functions` (lines 9 to 20), for a given GUI loader:
`UserData data = {get_instance_proc_addr, instance};` places the context in a
new stack slot, the loader is called with the adapter and `&data`, its `bool`
result is dropped, and the slot is released when the function returns. -/
def ig_load_vk_functions (ImGui_ImplVulkan_LoadFunctions : LoaderProg)
    (get_instance_proc_addr : PFN_vkGetInstanceProcAddr) (instance_ : VkInstance)
    (w : World) : Outcome Unit :=
  let data : UserData := { vkGetInstanceProcAddress := get_instance_proc_addr, instance_ := instance_ }
  let user_data : Addr := w.stack.length
  let w1 : World := { w with stack := w.stack ++ [data] }
  let w2 : World := w1.log (.loaderCall user_data w1.stack[user_data]?)
  match runLoader adapter user_data ImGui_ImplVulkan_LoadFunctions w2 with
  | .ok _ w3 => .ok () { w3 with stack := w3.stack.dropLast }
  | .fault why w3 => .fault why w3

/-! ## Observations on traces -/

/-- The resolver invocations of a trace, in order. -/
def resolverCalls : List Event → List (VkInstance × String)
  | [] => []
  | .resolverCall i n :: es => (i, n) :: resolverCalls es
  | _ :: es => resolverCalls es

/-- The names the loader passed to the adapter, in order. -/
def adapterNames : List Event → List String
  | [] => []
  | .adapterCall n _ :: es => n :: adapterNames es
  | _ :: es => adapterNames es

/-- The pointers the adapter returned to the loader, with the name asked. -/
def adapterResults : List Event → List (String × Ptr)
  | [] => []
  | .adapterReturn n p :: es => (n, p) :: adapterResults es
  | _ :: es => adapterResults es

/-- The context pointers the adapter was invoked with, in order. -/
def adapterContexts : List Event → List Addr
  | [] => []
  | .adapterCall _ a :: es => a :: adapterContexts es
  | _ :: es => adapterContexts es

/-- The entries into the GUI loader, in order. -/
def loaderCalls : List Event → List (Addr × Option UserData)
  | [] => []
  | .loaderCall a d :: es => (a, d) :: loaderCalls es
  | _ :: es => loaderCalls es

/-- Replace the result a loader reports, leaving its requests unchanged. -/
def LoaderProg.mapRet (f : Bool → Bool) : LoaderProg → LoaderProg
  | .ret success => .ret (f success)
  | .load function_name next => .load function_name (fun p => (next p).mapRet f)

/-! ## Platform configuration: data model -/

/-- The preprocessor names the two headers test or define. -/
inductive MacroName where
  | __linux__
  | _WIN32
  | WIN32
  | _VULKAN_WRAPPER_H_
  | VK_NO_PROTOTYPES
  | VK_USE_PLATFORM_WAYLAND_KHR
  | VK_USE_PLATFORM_XCB_KHR
  | VK_USE_PLATFORM_XLIB_KHR
  | VK_USE_PLATFORM_WIN32_KHR
  deriving DecidableEq, Repr

/-- The names defined so far, in order of definition. Replacement lists are
not kept: the directives only test whether a name is defined. -/
abbrev MacroEnv := List MacroName

/-- The test `defined(m)` or `#ifdef m`. -/
def isDefined (m : MacroName) (env : MacroEnv) : Bool :=
  decide (m ∈ env)

/-- The directive `#define m`. -/
def define (m : MacroName) (env : MacroEnv) : MacroEnv :=
  if isDefined m env then env else env ++ [m]

/-- The result of preprocessing: the names defined at the end, or the message
of the `#error` that stopped the translation. -/
inductive PpResult where
  | ok (env : MacroEnv)
  | error (message : String)
  deriving DecidableEq, Repr

/-- The platform names a compiler may predefine, as far as the headers look. -/
structure Predefined where
  __linux__ : Bool
  _WIN32 : Bool
  WIN32 : Bool
  deriving DecidableEq, Repr

/-- The environment in which a translation unit starts on a given platform. -/
def Predefined.env (p : Predefined) : MacroEnv :=
  (if p.__linux__ then [MacroName.__linux__] else []) ++
  (if p._WIN32 then [MacroName._WIN32] else []) ++
  (if p.WIN32 then [MacroName.WIN32] else [])

/-- The names that switch features of the Vulkan headers. -/
def isVulkanSwitch : MacroName → Bool
  | .VK_NO_PROTOTYPES => true
  | .VK_USE_PLATFORM_WAYLAND_KHR => true
  | .VK_USE_PLATFORM_XCB_KHR => true
  | .VK_USE_PLATFORM_XLIB_KHR => true
  | .VK_USE_PLATFORM_WIN32_KHR => true
  | _ => false

/-- The names that select a windowing-system surface. -/
def isWindowingSwitch : MacroName → Bool
  | .VK_USE_PLATFORM_WAYLAND_KHR => true
  | .VK_USE_PLATFORM_XCB_KHR => true
  | .VK_USE_PLATFORM_XLIB_KHR => true
  | .VK_USE_PLATFORM_WIN32_KHR => true
  | _ => false

/-! ## Platform configuration: the two headers -/

/-- Lines 1 to 15 of `vendor/src/vulkan/vulkan_wrapper.h`: the include guard,
`#define VK_NO_PROTOTYPES`, and the `#ifdef __linux__` / `#elif defined(_WIN32)
|| defined(WIN32)` / `#else #error` chain. The two `#include` lines that follow
name files that are not among the sources and are left out. -/
def vendor_vulkan_wrapper_h (env : MacroEnv) : PpResult :=
  if isDefined ._VULKAN_WRAPPER_H_ env then .ok env
  else
    let env := define ._VULKAN_WRAPPER_H_ env
    let env := define .VK_NO_PROTOTYPES env
    if isDefined .__linux__ env then
      let env := define .VK_USE_PLATFORM_WAYLAND_KHR env
      let env := define .VK_USE_PLATFORM_XCB_KHR env
      let env := define .VK_USE_PLATFORM_XLIB_KHR env
      .ok env
    else if isDefined ._WIN32 env || isDefined .WIN32 env then
      let env := define .VK_USE_PLATFORM_WIN32_KHR env
      .ok env
    else
      .error "Unsupported platform for vulkan bindings."

/-- Lines 1 to 15 of `engine/vendor/vulkan/vulkan_wrapper.h`, translated from
that file on its own; its `#include` lines are left out as well. -/
def engine_vulkan_wrapper_h (env : MacroEnv) : PpResult :=
  if isDefined ._VULKAN_WRAPPER_H_ env then .ok env
  else
    let env := define ._VULKAN_WRAPPER_H_ env
    let env := define .VK_NO_PROTOTYPES env
    if isDefined .__linux__ env then
      let env := define .VK_USE_PLATFORM_WAYLAND_KHR env
      let env := define .VK_USE_PLATFORM_XCB_KHR env
      let env := define .VK_USE_PLATFORM_XLIB_KHR env
      .ok env
    else if isDefined ._WIN32 env || isDefined .WIN32 env then
      let env := define .VK_USE_PLATFORM_WIN32_KHR env
      .ok env
    else
      .error "Unsupported platform for vulkan bindings."

/-- A header seen as a platform configuration: started from the names the
platform predefines, it yields the Vulkan switches defined at its end, or the
build failure. -/
def platformConfig (header : MacroEnv → PpResult) (p : Predefined) : PpResult :=
  match header p.env with
  | .ok env => .ok (env.filter isVulkanSwitch)
  | .error message => .error message

/-- Whether a configuration is a build failure. -/
def PpResult.failed : PpResult → Bool
  | .ok _ => false
  | .error _ => true

/-- The switches a configuration defines (none when the build fails). -/
def PpResult.switches : PpResult → List MacroName
  | .ok env => env
  | .error _ => []

/-- The windowing-system switches a configuration defines. -/
def PpResult.windowing (c : PpResult) : List MacroName :=
  c.switches.filter isWindowingSwitch

/-! ## Spec-side descriptions used to state results -/

/-- Apply a function to the value an outcome returns. -/
def Outcome.mapVal {α β : Type} (f : α → β) : Outcome α → Outcome β
  | .ok val w => .ok (f val) w
  | .fault why w => .fault why w

/-- The loader of the end-to-end scenario: it asks for `"vkCreateDevice"`, then
for `"vkDestroyDevice"`, and reports whatever `report` makes of the two
pointers. -/
def scenarioLoader (report : Ptr → Ptr → Bool) : LoaderProg :=
  .load "vkCreateDevice" fun created =>
    .load "vkDestroyDevice" fun destroyed =>
      .ret (report created destroyed)

/-- A resolver for the end-to-end scenario, knowing two entry points. -/
def scenarioResolver : ResolverFn := fun _ function_name =>
  if function_name = "vkCreateDevice" then 0x1000
  else if function_name = "vkDestroyDevice" then 0x2000
  else 0

/-- A resolver that knows `"vkCreateInstance"` and nothing else. -/
def partialResolver : ResolverFn := fun _ function_name =>
  if function_name = "vkCreateInstance" then 0x10 else 0

/-- The events expected from a loader whose every request `n` is answered by
`resolver instance_ n` through the context at `user_data`. -/
def expectedEvents (resolver : ResolverFn) (instance_ : VkInstance) (user_data : Addr) :
    LoaderProg → List Event
  | .ret _ => []
  | .load n next =>
    .adapterCall n user_data :: .resolverCall instance_ n ::
      .adapterReturn n (resolver instance_ n) ::
      expectedEvents resolver instance_ user_data (next (resolver instance_ n))

/-- The result a loader reports when every request `n` is answered by
`resolver instance_ n`. -/
def expectedReport (resolver : ResolverFn) (instance_ : VkInstance) : LoaderProg → Bool
  | .ret success => success
  | .load n next => expectedReport resolver instance_ (next (resolver instance_ n))

/-! ## Lemmas on the bridge -/

theorem adapter_live (resolver : ResolverFn) (instance_ : VkInstance) (n : String)
    (a : Addr) (w : World)
    (h : w.stack[a]? = some ⟨some resolver, instance_⟩) :
    adapter n a w = .ok (resolver instance_ n) (w.log (.resolverCall instance_ n)) := by
  simp [adapter, h]

theorem runLoader_live (resolver : ResolverFn) (instance_ : VkInstance) (a : Addr)
    (s : List UserData) (h : s[a]? = some ⟨some resolver, instance_⟩)
    (prog : LoaderProg) (t : List Event) :
    runLoader adapter a prog ⟨s, t⟩
      = .ok (expectedReport resolver instance_ prog)
          ⟨s, t ++ expectedEvents resolver instance_ a prog⟩ := by
  induction prog generalizing t with
  | ret b => simp [runLoader, expectedReport, expectedEvents]
  | load n next ih =>
    have hw : (World.log ⟨s, t⟩ (.adapterCall n a)).stack[a]? = some ⟨some resolver, instance_⟩ := h
    rw [runLoader, adapter_live resolver instance_ n a _ hw]
    simp only [World.log]
    rw [ih]
    simp [expectedReport, expectedEvents]

theorem ig_load_vk_functions_valid (prog : LoaderProg) (resolver : ResolverFn)
    (instance_ : VkInstance) (w : World) :
    ig_load_vk_functions prog (some resolver) instance_ w
      = .ok () ⟨w.stack, w.trace ++
          .loaderCall w.stack.length (some ⟨some resolver, instance_⟩) ::
            expectedEvents resolver instance_ w.stack.length prog⟩ := by
  have h : (w.stack ++ [(⟨some resolver, instance_⟩ : UserData)])[w.stack.length]?
      = some ⟨some resolver, instance_⟩ := by simp
  simp only [ig_load_vk_functions, World.log, h]
  rw [runLoader_live resolver instance_ _ _ h]
  simp

theorem ig_load_vk_functions_null_ret (success : Bool) (instance_ : VkInstance) (w : World) :
    ig_load_vk_functions (.ret success) none instance_ w
      = .ok () ⟨w.stack, w.trace ++ [.loaderCall w.stack.length (some ⟨none, instance_⟩)]⟩ := by
  simp [ig_load_vk_functions, World.log, runLoader]

theorem ig_load_vk_functions_null_load (n : String) (next : Ptr → LoaderProg)
    (instance_ : VkInstance) (w : World) :
    ig_load_vk_functions (.load n next) none instance_ w
      = .fault .nullFunctionPointer ⟨w.stack ++ [⟨none, instance_⟩], w.trace ++
          [.loaderCall w.stack.length (some ⟨none, instance_⟩),
           .adapterCall n w.stack.length]⟩ := by
  simp [ig_load_vk_functions, World.log, runLoader, adapter]

theorem events_append {α : Type} (o : Outcome α) (w : World) (es : List Event)
    (h : o.world.trace = w.trace ++ es) : o.events w = es := by
  simp [Outcome.events, h]

theorem events_valid (prog : LoaderProg) (resolver : ResolverFn)
    (instance_ : VkInstance) (w : World) :
    (ig_load_vk_functions prog (some resolver) instance_ w).events w
      = .loaderCall w.stack.length (some ⟨some resolver, instance_⟩) ::
          expectedEvents resolver instance_ w.stack.length prog := by
  apply events_append
  rw [ig_load_vk_functions_valid]
  rfl

theorem resolverCalls_expected (resolver : ResolverFn) (instance_ : VkInstance) (a : Addr)
    (prog : LoaderProg) :
    resolverCalls (expectedEvents resolver instance_ a prog)
      = (adapterNames (expectedEvents resolver instance_ a prog)).map
          (fun n => (instance_, n)) := by
  induction prog with
  | ret b => rfl
  | load n next ih => simp [expectedEvents, resolverCalls, adapterNames, ih]

theorem adapterResults_expected (resolver : ResolverFn) (instance_ : VkInstance) (a : Addr)
    (prog : LoaderProg) :
    adapterResults (expectedEvents resolver instance_ a prog)
      = (adapterNames (expectedEvents resolver instance_ a prog)).map
          (fun n => (n, resolver instance_ n)) := by
  induction prog with
  | ret b => rfl
  | load n next ih => simp [expectedEvents, adapterResults, adapterNames, ih]

theorem adapterContexts_expected (resolver : ResolverFn) (instance_ : VkInstance) (a : Addr)
    (prog : LoaderProg) :
    ∀ c ∈ adapterContexts (expectedEvents resolver instance_ a prog), c = a := by
  induction prog with
  | ret b => simp [expectedEvents, adapterContexts]
  | load n next ih =>
    intro c hc
    simp only [expectedEvents, adapterContexts, List.mem_cons] at hc
    rcases hc with hc | hc
    · exact hc
    · exact ih _ c hc

theorem loaderCalls_expected (resolver : ResolverFn) (instance_ : VkInstance) (a : Addr)
    (prog : LoaderProg) :
    loaderCalls (expectedEvents resolver instance_ a prog) = [] := by
  induction prog with
  | ret b => rfl
  | load n next ih => simp [expectedEvents, loaderCalls, ih]

theorem runLoader_mapRet (loader_func : String → Addr → World → Outcome Ptr) (a : Addr)
    (f : Bool → Bool) (prog : LoaderProg) (w : World) :
    runLoader loader_func a (prog.mapRet f) w = (runLoader loader_func a prog w).mapVal f := by
  induction prog generalizing w with
  | ret b => rfl
  | load n next ih =>
    simp only [LoaderProg.mapRet, runLoader]
    cases loader_func n a (w.log (.adapterCall n a)) with
    | ok result w1 => exact ih _ _
    | fault why w1 => rfl

theorem ig_load_vk_functions_mapRet (f : Bool → Bool) (prog : LoaderProg)
    (get_instance_proc_addr : PFN_vkGetInstanceProcAddr) (instance_ : VkInstance) (w : World) :
    ig_load_vk_functions (prog.mapRet f) get_instance_proc_addr instance_ w
      = ig_load_vk_functions prog get_instance_proc_addr instance_ w := by
  simp only [ig_load_vk_functions, runLoader_mapRet]
  cases runLoader adapter w.stack.length prog _ <;> rfl

/-! ## The bridge: results -/

/-- C1: for every resolver, instance handle and entry-point name, the adapter
that `ig_load_vk_functions` hands to the loader, applied to the name and to the
pointer `&data` (the slot right above the caller's stack), whatever has been
recorded so far, calls the resolver once with exactly `(instance, name)` and
returns `resolver instance name`; and in a whole run of any loader the pointers
returned to the loader are, request by request, `resolver instance name`. -/
theorem adapter_forwards_name_and_instance (resolver : ResolverFn) (instance_ : VkInstance)
    (function_name : String) (w : World) :
    (∀ t : List Event,
      adapter function_name w.stack.length ⟨w.stack ++ [⟨some resolver, instance_⟩], t⟩
        = .ok (resolver instance_ function_name)
            ⟨w.stack ++ [⟨some resolver, instance_⟩],
              t ++ [.resolverCall instance_ function_name]⟩) ∧
    (∀ prog : LoaderProg,
      adapterResults ((ig_load_vk_functions prog (some resolver) instance_ w).events w)
        = (adapterNames ((ig_load_vk_functions prog (some resolver) instance_ w).events w)).map
            (fun n => (n, resolver instance_ n))) := by
  constructor
  · intro t
    have h : (w.stack ++ [(⟨some resolver, instance_⟩ : UserData)])[w.stack.length]?
        = some ⟨some resolver, instance_⟩ := by simp
    exact adapter_live resolver instance_ function_name _ ⟨_, t⟩ h
  · intro prog
    rw [events_valid]
    simp [adapterResults, adapterNames, adapterResults_expected]

/-- C2: when `resolver instance name` is null, the adapter returns null for
that name, as a normal return, whatever the trace of earlier calls holds; and
in a whole run of any loader the run returns normally and every pointer handed
back for that name is null, also after non-null answers for other names. -/
theorem adapter_passes_null_through (resolver : ResolverFn) (instance_ : VkInstance)
    (function_name : String) (w : World)
    (hnull : resolver instance_ function_name = 0) :
    (∀ t : List Event,
      adapter function_name w.stack.length ⟨w.stack ++ [⟨some resolver, instance_⟩], t⟩
        = .ok 0 ⟨w.stack ++ [⟨some resolver, instance_⟩],
              t ++ [.resolverCall instance_ function_name]⟩) ∧
    (∀ prog : LoaderProg,
      (ig_load_vk_functions prog (some resolver) instance_ w).returned = true ∧
      ∀ p : Ptr,
        (function_name, p) ∈
            adapterResults ((ig_load_vk_functions prog (some resolver) instance_ w).events w) →
          p = 0) := by
  constructor
  · intro t
    have h : (w.stack ++ [(⟨some resolver, instance_⟩ : UserData)])[w.stack.length]?
        = some ⟨some resolver, instance_⟩ := by simp
    rw [adapter_live resolver instance_ function_name _ ⟨_, t⟩ h, hnull]
    rfl
  · intro prog
    refine ⟨by rw [ig_load_vk_functions_valid]; rfl, ?_⟩
    intro p hp
    rw [events_valid] at hp
    simp only [adapterResults, adapterResults_expected, List.mem_map] at hp
    obtain ⟨n, _, hn⟩ := hp
    simp only [Prod.mk.injEq] at hn
    rw [← hn.2, hn.1, hnull]

/-- Witness for C2: `partialResolver` answers null for `"vkDestroyInstance"`; a
loader asking first for `"vkCreateInstance"` (non-null) and then for it. -/
theorem adapter_passes_null_through_witness :
    partialResolver 7 "vkDestroyInstance" = 0 ∧
    partialResolver 7 "vkCreateInstance" = 0x10 ∧
    adapterResults
        ((ig_load_vk_functions
            (.load "vkCreateInstance" fun _ => .load "vkDestroyInstance" fun _ => .ret true)
            (some partialResolver) 7 ⟨[], []⟩).events ⟨[], []⟩)
      = [("vkCreateInstance", 0x10), ("vkDestroyInstance", 0)] ∧
    ∀ p : Ptr,
      ("vkDestroyInstance", p) ∈
          adapterResults
            ((ig_load_vk_functions
                (.load "vkCreateInstance" fun _ => .load "vkDestroyInstance" fun _ => .ret true)
                (some partialResolver) 7 ⟨[], []⟩).events ⟨[], []⟩) →
        p = 0 :=
  ⟨by decide, by decide, by rw [events_valid]; decide,
    ((adapter_passes_null_through partialResolver 7 "vkDestroyInstance" ⟨[], []⟩
      (by decide)).2 _).2⟩

/-- C3: during one call `ig_load_vk_functions(resolver, instance)` the resolver
calls are exactly the names the loader passed to the adapter, in the same
order, each paired with `instance` (the events of the call being what it adds
to the trace it started from); a loader that returns without calling the
adapter causes no resolver call, whatever the resolver (null included). -/
theorem resolver_called_only_through_adapter (resolver : ResolverFn) (instance_ : VkInstance)
    (w : World) :
    (∀ prog : LoaderProg,
      resolverCalls ((ig_load_vk_functions prog (some resolver) instance_ w).events w)
        = (adapterNames ((ig_load_vk_functions prog (some resolver) instance_ w).events w)).map
            (fun n => (instance_, n))) ∧
    (∀ prog : LoaderProg,
      (ig_load_vk_functions prog (some resolver) instance_ w).world.trace
        = w.trace ++ (ig_load_vk_functions prog (some resolver) instance_ w).events w) ∧
    (∀ (success : Bool) (get_instance_proc_addr : PFN_vkGetInstanceProcAddr),
      resolverCalls
        ((ig_load_vk_functions (.ret success) get_instance_proc_addr instance_ w).events w)
        = []) := by
  refine ⟨?_, ?_, ?_⟩
  · intro prog
    rw [events_valid]
    simp [resolverCalls, adapterNames, resolverCalls_expected]
  · intro prog
    rw [events_valid, ig_load_vk_functions_valid]
    rfl
  · intro success r
    cases r with
    | none =>
      rw [events_append _ w _ (by rw [ig_load_vk_functions_null_ret]; rfl)]
      rfl
    | some f =>
      rw [events_valid]
      rfl

/-- C4: for handles `H1 ≠ H2`, after `ig_load_vk_functions(resolver, H1)` has
run (it returns normally and leaves the stack as it found it), a call
`ig_load_vk_functions(resolver, H2)` records the same events, returns the same
way and leaves the same stack as it does without the first call, and every
resolver call it makes carries `H2`, never `H1`. -/
theorem second_call_sees_only_second_instance (resolver : ResolverFn) (H1 H2 : VkInstance)
    (first second : LoaderProg) (w : World) (hne : H1 ≠ H2) :
    (ig_load_vk_functions first (some resolver) H1 w).returned = true ∧
    (ig_load_vk_functions first (some resolver) H1 w).world.stack = w.stack ∧
    (ig_load_vk_functions second (some resolver) H2
        (ig_load_vk_functions first (some resolver) H1 w).world).events
        (ig_load_vk_functions first (some resolver) H1 w).world
      = (ig_load_vk_functions second (some resolver) H2 w).events w ∧
    (ig_load_vk_functions second (some resolver) H2
        (ig_load_vk_functions first (some resolver) H1 w).world).returned
      = (ig_load_vk_functions second (some resolver) H2 w).returned ∧
    (ig_load_vk_functions second (some resolver) H2
        (ig_load_vk_functions first (some resolver) H1 w).world).world.stack
      = (ig_load_vk_functions second (some resolver) H2 w).world.stack ∧
    ∀ c ∈ resolverCalls
        ((ig_load_vk_functions second (some resolver) H2
          (ig_load_vk_functions first (some resolver) H1 w).world).events
          (ig_load_vk_functions first (some resolver) H1 w).world),
      c.1 = H2 ∧ c.1 ≠ H1 := by
  have hstack : (ig_load_vk_functions first (some resolver) H1 w).world.stack = w.stack := by
    rw [ig_load_vk_functions_valid]; rfl
  refine ⟨by rw [ig_load_vk_functions_valid]; rfl, hstack, ?_, ?_, ?_, ?_⟩
  · rw [events_valid, events_valid, hstack]
  · simp only [ig_load_vk_functions_valid]; rfl
  · simp only [ig_load_vk_functions_valid]; rfl
  · intro c hc
    rw [events_valid] at hc
    simp only [resolverCalls, resolverCalls_expected, List.mem_map] at hc
    obtain ⟨n, _, hn⟩ := hc
    subst hn
    exact ⟨rfl, fun h => hne h.symm⟩

/-- Witness for C4: handles 1 and 2, both loaders asking for `"vkCreateDevice"`
and `"vkDestroyDevice"`, from the empty world: the second call's resolver calls
are `(2, "vkCreateDevice")` and `(2, "vkDestroyDevice")`. -/
theorem second_call_sees_only_second_instance_witness :
    (1 : VkInstance) ≠ 2 ∧
    resolverCalls
        ((ig_load_vk_functions (scenarioLoader fun _ _ => true) (some scenarioResolver) 2
          (ig_load_vk_functions (scenarioLoader fun _ _ => true) (some scenarioResolver) 1
            ⟨[], []⟩).world).events
          (ig_load_vk_functions (scenarioLoader fun _ _ => true) (some scenarioResolver) 1
            ⟨[], []⟩).world)
      = [(2, "vkCreateDevice"), (2, "vkDestroyDevice")] ∧
    ∀ c ∈ resolverCalls
        ((ig_load_vk_functions (scenarioLoader fun _ _ => true) (some scenarioResolver) 2
          (ig_load_vk_functions (scenarioLoader fun _ _ => true) (some scenarioResolver) 1
            ⟨[], []⟩).world).events
          (ig_load_vk_functions (scenarioLoader fun _ _ => true) (some scenarioResolver) 1
            ⟨[], []⟩).world),
      c.1 = 2 ∧ c.1 ≠ 1 :=
  ⟨by decide, by rw [events_valid]; decide,
    (second_call_sees_only_second_instance scenarioResolver 1 2
      (scenarioLoader fun _ _ => true) (scenarioLoader fun _ _ => true) ⟨[], []⟩
      (by decide)).2.2.2.2.2⟩

/-- C5: with a resolver mapping `"vkCreateDevice"` to `0x1000` and
`"vkDestroyDevice"` to `0x2000` for the handle `H`, a run whose loader asks for
these two names hands `0x1000` and then `0x2000` back to the loader, the
resolver calls are `(H, "vkCreateDevice")` then `(H, "vkDestroyDevice")`, and in
the full record each answer comes right after the resolver call that made it. -/
theorem end_to_end_scenario (resolver : ResolverFn) (H : VkInstance)
    (report : Ptr → Ptr → Bool) (w : World)
    (hcreate : resolver H "vkCreateDevice" = 0x1000)
    (hdestroy : resolver H "vkDestroyDevice" = 0x2000) :
    (ig_load_vk_functions (scenarioLoader report) (some resolver) H w).returned = true ∧
    adapterResults ((ig_load_vk_functions (scenarioLoader report) (some resolver) H w).events w)
      = [("vkCreateDevice", 0x1000), ("vkDestroyDevice", 0x2000)] ∧
    resolverCalls ((ig_load_vk_functions (scenarioLoader report) (some resolver) H w).events w)
      = [(H, "vkCreateDevice"), (H, "vkDestroyDevice")] ∧
    (ig_load_vk_functions (scenarioLoader report) (some resolver) H w).events w
      = [.loaderCall w.stack.length (some ⟨some resolver, H⟩),
         .adapterCall "vkCreateDevice" w.stack.length,
         .resolverCall H "vkCreateDevice",
         .adapterReturn "vkCreateDevice" 0x1000,
         .adapterCall "vkDestroyDevice" w.stack.length,
         .resolverCall H "vkDestroyDevice",
         .adapterReturn "vkDestroyDevice" 0x2000] := by
  refine ⟨by rw [ig_load_vk_functions_valid]; rfl, ?_, ?_, ?_⟩ <;>
    rw [events_valid] <;>
    simp [scenarioLoader, expectedEvents, adapterResults, resolverCalls, hcreate, hdestroy]

/-- Witness for C5: `scenarioResolver`, the handle 42, the empty world. -/
theorem end_to_end_scenario_witness :
    scenarioResolver 42 "vkCreateDevice" = 0x1000 ∧
    scenarioResolver 42 "vkDestroyDevice" = 0x2000 ∧
    adapterResults
        ((ig_load_vk_functions (scenarioLoader fun _ _ => true) (some scenarioResolver) 42
          ⟨[], []⟩).events ⟨[], []⟩)
      = [("vkCreateDevice", 0x1000), ("vkDestroyDevice", 0x2000)] ∧
    resolverCalls
        ((ig_load_vk_functions (scenarioLoader fun _ _ => true) (some scenarioResolver) 42
          ⟨[], []⟩).events ⟨[], []⟩)
      = [(42, "vkCreateDevice"), (42, "vkDestroyDevice")] :=
  ⟨by decide, by decide,
    (end_to_end_scenario scenarioResolver 42 (fun _ _ => true) ⟨[], []⟩
      (by decide) (by decide)).2.1,
    (end_to_end_scenario scenarioResolver 42 (fun _ _ => true) ⟨[], []⟩
      (by decide) (by decide)).2.2.1⟩

/-- C8: the context lives in the slot right above the caller's stack, which
holds nothing before the call; the loader is entered with that slot holding
`(resolver, instance)`; every adapter invocation of the run is handed that slot
and none finds it dead; and when `ig_load_vk_functions` returns, the stack is
the caller's again, so the slot, and with it the resolver and the handle, is
gone. -/
theorem context_outlives_every_use (prog : LoaderProg)
    (get_instance_proc_addr : PFN_vkGetInstanceProcAddr) (instance_ : VkInstance) (w : World) :
    w.stack[w.stack.length]? = none ∧
    ((ig_load_vk_functions prog get_instance_proc_addr instance_ w).events w).head?
      = some (.loaderCall w.stack.length (some ⟨get_instance_proc_addr, instance_⟩)) ∧
    (∀ c ∈ adapterContexts
        ((ig_load_vk_functions prog get_instance_proc_addr instance_ w).events w),
      c = w.stack.length) ∧
    (∀ w1 : World,
      ig_load_vk_functions prog get_instance_proc_addr instance_ w
        ≠ .fault .danglingContext w1) ∧
    ((ig_load_vk_functions prog get_instance_proc_addr instance_ w).returned = true →
      (ig_load_vk_functions prog get_instance_proc_addr instance_ w).world.stack = w.stack ∧
      (ig_load_vk_functions prog get_instance_proc_addr instance_ w).world.stack[w.stack.length]?
        = none) := by
  refine ⟨by simp, ?_⟩
  cases get_instance_proc_addr with
  | some resolver =>
    rw [events_valid, ig_load_vk_functions_valid]
    refine ⟨rfl, ?_, (fun w1 h => by cases h), (fun _ => ⟨rfl, by simp [Outcome.world]⟩)⟩
    intro c hc
    exact adapterContexts_expected resolver instance_ _ prog c hc
  | none =>
    cases prog with
    | ret success =>
      rw [events_append _ w _ (by rw [ig_load_vk_functions_null_ret]; rfl),
        ig_load_vk_functions_null_ret]
      exact ⟨rfl, by simp [adapterContexts], (fun w1 h => by cases h),
        (fun _ => ⟨rfl, by simp [Outcome.world]⟩)⟩
    | load n next =>
      rw [events_append _ w _ (by rw [ig_load_vk_functions_null_load]; rfl),
        ig_load_vk_functions_null_load]
      exact ⟨rfl, by simp [adapterContexts], (fun w1 h => by cases h),
        (fun h => by simp [Outcome.returned] at h)⟩

/-- Witness for C8: a run that returns; afterwards the stack is the caller's
(empty) one and address 0, where the context was, holds nothing. -/
theorem context_outlives_every_use_witness :
    (ig_load_vk_functions (scenarioLoader fun _ _ => true) (some scenarioResolver) 42
        ⟨[], []⟩).returned = true ∧
    (ig_load_vk_functions (scenarioLoader fun _ _ => true) (some scenarioResolver) 42
        ⟨[], []⟩).world.stack[0]? = none :=
  ⟨by rw [ig_load_vk_functions_valid]; rfl,
    ((context_outlives_every_use (scenarioLoader fun _ _ => true) (some scenarioResolver) 42
      ⟨[], []⟩).2.2.2.2 (by rw [ig_load_vk_functions_valid]; rfl)).2⟩

/-- C9: whatever the resolver (null included) and the handle (null included),
`ig_load_vk_functions` enters the GUI loader exactly once, with the adapter's
context holding exactly `(resolver, instance)`, and what the run records after
that is what the loader does with `adapter` and the address of that context; it
returns `()` and the same world whatever the loader reports, so a reported failure cannot be told from
success; and with a loader that asks for nothing it returns normally, without
checking anything. -/
theorem no_validation_and_result_dropped (prog : LoaderProg)
    (get_instance_proc_addr : PFN_vkGetInstanceProcAddr) (instance_ : VkInstance) (w : World) :
    loaderCalls ((ig_load_vk_functions prog get_instance_proc_addr instance_ w).events w)
      = [(w.stack.length, some ⟨get_instance_proc_addr, instance_⟩)] ∧
    (ig_load_vk_functions prog get_instance_proc_addr instance_ w).events w
      = .loaderCall w.stack.length (some ⟨get_instance_proc_addr, instance_⟩) ::
          (runLoader adapter w.stack.length prog
            ⟨w.stack ++ [⟨get_instance_proc_addr, instance_⟩], []⟩).world.trace ∧
    (∀ f : Bool → Bool,
      ig_load_vk_functions (prog.mapRet f) get_instance_proc_addr instance_ w
        = ig_load_vk_functions prog get_instance_proc_addr instance_ w) ∧
    (∀ success : Bool,
      ig_load_vk_functions (.ret success) get_instance_proc_addr instance_ w
        = .ok () ⟨w.stack, w.trace ++
            [.loaderCall w.stack.length (some ⟨get_instance_proc_addr, instance_⟩)]⟩) := by
  refine ⟨?_, ?_, fun f => ig_load_vk_functions_mapRet f prog _ _ _, ?_⟩
  · cases get_instance_proc_addr with
    | some resolver =>
      rw [events_valid]
      simp [loaderCalls, loaderCalls_expected]
    | none =>
      cases prog with
      | ret success =>
        rw [events_append _ w _ (by rw [ig_load_vk_functions_null_ret]; rfl)]
        rfl
      | load n next =>
        rw [events_append _ w _ (by rw [ig_load_vk_functions_null_load]; rfl)]
        rfl
  · cases get_instance_proc_addr with
    | some resolver =>
      have h : (w.stack ++ [(⟨some resolver, instance_⟩ : UserData)])[w.stack.length]?
          = some ⟨some resolver, instance_⟩ := by simp
      rw [events_valid, runLoader_live resolver instance_ _ _ h]
      simp [Outcome.world]
    | none =>
      cases prog with
      | ret success =>
        rw [events_append _ w _ (by rw [ig_load_vk_functions_null_ret]; rfl)]
        rfl
      | load n next =>
        rw [events_append _ w _ (by rw [ig_load_vk_functions_null_load]; rfl)]
        simp [runLoader, adapter, World.log, Outcome.world]
  · intro success
    cases get_instance_proc_addr with
    | some resolver => rw [ig_load_vk_functions_valid]; rfl
    | none => exact ig_load_vk_functions_null_ret success instance_ w

/-! ## The platform configuration: results -/

/-- C6: as a function of the predefined platform names, each copy of
`vulkan_wrapper.h` stops the build exactly when none of `__linux__`, `_WIN32`
and `WIN32` is defined, with the message of its `#error`; on every other input
it succeeds. -/
theorem build_fails_iff_no_platform (p : Predefined) :
    ((platformConfig vendor_vulkan_wrapper_h p).failed = true ↔
      (p.__linux__ = false ∧ p._WIN32 = false ∧ p.WIN32 = false)) ∧
    ((platformConfig engine_vulkan_wrapper_h p).failed = true ↔
      (p.__linux__ = false ∧ p._WIN32 = false ∧ p.WIN32 = false)) ∧
    ((platformConfig vendor_vulkan_wrapper_h p).failed = true →
      platformConfig vendor_vulkan_wrapper_h p
        = .error "Unsupported platform for vulkan bindings.") ∧
    ((platformConfig engine_vulkan_wrapper_h p).failed = true →
      platformConfig engine_vulkan_wrapper_h p
        = .error "Unsupported platform for vulkan bindings.") := by
  rcases p with ⟨a, b, c⟩
  cases a <;> cases b <;> cases c <;> decide

/-- C7: on every supported input (one of `__linux__`, `_WIN32`, `WIN32` is
defined) each copy of `vulkan_wrapper.h` succeeds and defines
`VK_NO_PROTOTYPES`; its windowing switches are exactly the Wayland, XCB and
Xlib ones when `__linux__` is defined, and exactly the Win32 one when
`__linux__` is not defined and `_WIN32` or `WIN32` is; the Win32 switch is
never defined together with any of the other three. -/
theorem windowing_switches_by_family (p : Predefined)
    (hsupported : p.__linux__ = true ∨ p._WIN32 = true ∨ p.WIN32 = true) :
    ((platformConfig vendor_vulkan_wrapper_h p).failed = false ∧
      MacroName.VK_NO_PROTOTYPES ∈ (platformConfig vendor_vulkan_wrapper_h p).switches ∧
      (p.__linux__ = true →
        (platformConfig vendor_vulkan_wrapper_h p).windowing
          = [.VK_USE_PLATFORM_WAYLAND_KHR, .VK_USE_PLATFORM_XCB_KHR,
              .VK_USE_PLATFORM_XLIB_KHR]) ∧
      (p.__linux__ = false ∧ (p._WIN32 = true ∨ p.WIN32 = true) →
        (platformConfig vendor_vulkan_wrapper_h p).windowing
          = [.VK_USE_PLATFORM_WIN32_KHR]) ∧
      ¬ (MacroName.VK_USE_PLATFORM_WIN32_KHR ∈ (platformConfig vendor_vulkan_wrapper_h p).switches ∧
          (MacroName.VK_USE_PLATFORM_WAYLAND_KHR ∈ (platformConfig vendor_vulkan_wrapper_h p).switches ∨
           MacroName.VK_USE_PLATFORM_XCB_KHR ∈ (platformConfig vendor_vulkan_wrapper_h p).switches ∨
           MacroName.VK_USE_PLATFORM_XLIB_KHR ∈ (platformConfig vendor_vulkan_wrapper_h p).switches))) ∧
    ((platformConfig engine_vulkan_wrapper_h p).failed = false ∧
      MacroName.VK_NO_PROTOTYPES ∈ (platformConfig engine_vulkan_wrapper_h p).switches ∧
      (p.__linux__ = true →
        (platformConfig engine_vulkan_wrapper_h p).windowing
          = [.VK_USE_PLATFORM_WAYLAND_KHR, .VK_USE_PLATFORM_XCB_KHR,
              .VK_USE_PLATFORM_XLIB_KHR]) ∧
      (p.__linux__ = false ∧ (p._WIN32 = true ∨ p.WIN32 = true) →
        (platformConfig engine_vulkan_wrapper_h p).windowing
          = [.VK_USE_PLATFORM_WIN32_KHR]) ∧
      ¬ (MacroName.VK_USE_PLATFORM_WIN32_KHR ∈ (platformConfig engine_vulkan_wrapper_h p).switches ∧
          (MacroName.VK_USE_PLATFORM_WAYLAND_KHR ∈ (platformConfig engine_vulkan_wrapper_h p).switches ∨
           MacroName.VK_USE_PLATFORM_XCB_KHR ∈ (platformConfig engine_vulkan_wrapper_h p).switches ∨
           MacroName.VK_USE_PLATFORM_XLIB_KHR ∈ (platformConfig engine_vulkan_wrapper_h p).switches))) := by
  rcases p with ⟨a, b, c⟩
  revert hsupported
  cases a <;> cases b <;> cases c <;> decide

/-- Witness for C7: a Windows compiler predefining `_WIN32` only; the switches
defined are `VK_NO_PROTOTYPES` and `VK_USE_PLATFORM_WIN32_KHR`. -/
theorem windowing_switches_by_family_witness :
    ((⟨false, true, false⟩ : Predefined).__linux__ = true ∨
      (⟨false, true, false⟩ : Predefined)._WIN32 = true ∨
      (⟨false, true, false⟩ : Predefined).WIN32 = true) ∧
    (platformConfig vendor_vulkan_wrapper_h ⟨false, true, false⟩).switches
      = [.VK_NO_PROTOTYPES, .VK_USE_PLATFORM_WIN32_KHR] ∧
    (platformConfig vendor_vulkan_wrapper_h ⟨false, true, false⟩).windowing
      = [.VK_USE_PLATFORM_WIN32_KHR] :=
  ⟨by decide, by decide,
    (windowing_switches_by_family ⟨false, true, false⟩ (by decide)).1.2.2.2.1
      ⟨rfl, Or.inl rfl⟩⟩

/-- C10: the two copies of `vulkan_wrapper.h` are the same platform
configuration, on every combination of `__linux__`, `_WIN32` and `WIN32` and
indeed from every starting environment; and whenever `__linux__` is defined,
with or without `_WIN32` and `WIN32`, both give the Linux set, in which
`VK_USE_PLATFORM_WIN32_KHR` is not defined. -/
theorem header_copies_agree_linux_first (p : Predefined) :
    platformConfig vendor_vulkan_wrapper_h p = platformConfig engine_vulkan_wrapper_h p ∧
    (∀ env : MacroEnv, vendor_vulkan_wrapper_h env = engine_vulkan_wrapper_h env) ∧
    (∀ win32a win32b : Bool,
      platformConfig vendor_vulkan_wrapper_h ⟨true, win32a, win32b⟩
        = .ok [.VK_NO_PROTOTYPES, .VK_USE_PLATFORM_WAYLAND_KHR, .VK_USE_PLATFORM_XCB_KHR,
            .VK_USE_PLATFORM_XLIB_KHR] ∧
      platformConfig engine_vulkan_wrapper_h ⟨true, win32a, win32b⟩
        = .ok [.VK_NO_PROTOTYPES, .VK_USE_PLATFORM_WAYLAND_KHR, .VK_USE_PLATFORM_XCB_KHR,
            .VK_USE_PLATFORM_XLIB_KHR] ∧
      MacroName.VK_USE_PLATFORM_WIN32_KHR ∉
        (platformConfig vendor_vulkan_wrapper_h ⟨true, win32a, win32b⟩).switches ∧
      MacroName.VK_USE_PLATFORM_WIN32_KHR ∉
        (platformConfig engine_vulkan_wrapper_h ⟨true, win32a, win32b⟩).switches) := by
  refine ⟨?_, fun env => rfl, ?_⟩
  · rcases p with ⟨a, b, c⟩
    cases a <;> cases b <;> cases c <;> decide
  · intro a b
    cases a <;> cases b <;> decide

end ChibiTech
